import Mathlib

/-!
Formal model of the tracker module of CloudFlareDNSUpdater
(`cfdnsupdater/tracker.py`).

The module is translated into a shallow embedding:

* netlink messages become a record type, and the event loop of
  `NetlinkIPAddressTracker._run` becomes a function from a list of incoming
  messages to the list of arguments passed to the registered callback;
* the routing environment (`pyroute2.IPRoute`) becomes a record of functions
  (`get_default_routes`, `get_links`, `link_lookup`), so that
  `_find_interface_index` is a pure function of that environment;
* the timer loop of `IntervalIPAddressTracker._run`
  (`while not kill.wait(interval): callback(get_current())`) is modelled two
  ways: as a list of callback firing times (each `Event.wait(interval)` that
  times out advances the clock by `interval`), and as a fold over the stream
  of `wait` results (`true` = the stop event was set, `false` = timeout);
* `requests.get` becomes an abstract function from URL to an `Except` of an
  HTTP response, so `IpifyIPAddressTracker.get_current` is a pure function of
  that environment;
* the `Monitor` becomes an explicit state record; its `_start_tracker` body
  is an `Except`-valued sequence of steps whose failure points are given by a
  `TrackerBehavior` record (the tracker produced by the factory is abstract
  in the source, so each of its calls may raise), and the enclosing
  `try/except` is the `match` in `start_tracker` that turns an error into a
  logged-exception counter bump.
-/

namespace CFDNS

/-! ### Address families (Linux `socket` constants) -/

def AF_INET : Nat := 2

def AF_INET6 : Nat := 10

/-- `self._family = socket.AF_INET6 if ipv6 else socket.AF_INET` -/
def family_of (ipv6 : Bool) : Nat := if ipv6 then AF_INET6 else AF_INET

/-! ### Netlink messages and `NetlinkIPAddressTracker` -/

/-- The fields of a pyroute2 netlink address message that `tracker.py`
reads: `msg['event']`, `msg['family']`, `msg['scope']`, `msg['index']` and
the attribute list `msg['attrs']`. -/
structure NlMsg where
  event : String
  family : Nat
  scope : Nat
  index : Nat
  attrs : List (String × String)
deriving DecidableEq

def SCOPE_GLOBAL : Nat := 0

def ACTION_NEWADDR : String := "RTM_NEWADDR"

/-- `NetlinkIPAddressTracker._get_attr`: iterate over `msg['attrs']`, return
the value of the first attribute whose name matches; falling off the loop
returns Python's implicit `None`, modelled as `none`. -/
def get_attr (netlink_msg : NlMsg) (attr_name : String) : Option String :=
  (netlink_msg.attrs.find? (fun attr => attr.1 == attr_name)).map (·.2)

/-- A route message: the only field read is `routes[0].get_attr('RTA_OIF')`,
which may be absent. -/
structure RtMsg where
  rta_oif : Option Nat
deriving DecidableEq

/-- A link message: `interface.get("index")` and
`interface.get_attr("IFLA_IFNAME")` are read. -/
structure LinkMsg where
  index : Nat
  ifname : Option String
deriving DecidableEq

/-- The slice of the `IPRoute` interface that `_find_interface_index` uses:
`get_default_routes(family=...)`, `get_links(oif)` and
`link_lookup(ifname=...)`. -/
structure NetEnv where
  get_default_routes : Nat → List RtMsg
  get_links : Option Nat → List LinkMsg
  link_lookup : String → List Nat

/-- `NetlinkIPAddressTracker._find_interface_index`. Exceptions raised by
the Python code (including the `IndexError` from `get_links(...)[0]` on an
empty result) are modelled as `Except.error`. -/
def find_interface_index (env : NetEnv) (family : Nat) (iface_name : Option String) :
    Except String Nat :=
  match iface_name with
  | none =>
    match env.get_default_routes family with
    | [] => .error "No interface name given and no default route set"
    | route :: _ =>
      match env.get_links route.rta_oif with
      | [] => .error "IndexError: list index out of range"
      | interface :: _ => .ok interface.index
  | some name =>
    match env.link_lookup name with
    | [i] => .ok i
    | iface_ids =>
      .error ("Found " ++ toString iface_ids.length
        ++ " interfaces matching the interface name " ++ name)

/-- `true` on `Except.error`, mirroring "this call raised". -/
def raised {ε α : Type} : Except ε α → Bool
  | .error _ => true
  | .ok _ => false

/-- The fields of `NetlinkIPAddressTracker` set by `__init__` that later
methods read: the kill event, the open `IPRoute` socket, the (not yet
spawned) thread, and the resolved interface index. -/
structure NetlinkState where
  iface_name : Option String
  ipv6 : Bool
  family : Nat
  kill_set : Bool
  ipr_open : Bool
  thread : Option Unit
  iface_index : Nat
deriving DecidableEq

/-- `NetlinkIPAddressTracker.__init__`: stores the arguments, computes the
family, creates the kill event (unset) and no thread, and resolves the
interface index once via `_find_interface_index`; a resolution failure
propagates out of the constructor. -/
def netlink_init (env : NetEnv) (ipv6 : Bool) (iface_name : Option String) :
    Except String NetlinkState :=
  (find_interface_index env (family_of ipv6) iface_name).map (fun idx =>
    { iface_name := iface_name, ipv6 := ipv6, family := family_of ipv6,
      kill_set := false, ipr_open := true, thread := none, iface_index := idx })

/-- `NetlinkIPAddressTracker.stop`: set the kill event, close the `IPRoute`
socket, and join the thread only when one was spawned (`self._t is not
None`); joining changes no modelled state. -/
def netlink_stop (s : NetlinkState) : NetlinkState :=
  { s with kill_set := true, ipr_open := false }

/-- `NetlinkIPAddressTracker.get_current`: query the current addresses for
the family and interface (the query result is the `addr_msgs` argument) and
return the `IFA_ADDRESS` attribute of the first one; an empty query result
makes `nl_msg[0]` raise `IndexError`. -/
def netlink_get_current (addr_msgs : List NlMsg) : Except String (Option String) :=
  match addr_msgs with
  | [] => .error "IndexError: list index out of range"
  | nl_msg :: _ => .ok (get_attr nl_msg "IFA_ADDRESS")

/-- The filter condition of `NetlinkIPAddressTracker._run`, exactly as in
the source: `msg['event'] == ACTION_NEWADDR and msg['family'] ==
self._family and msg['scope'] == SCOPE_GLOBAL and msg['index'] ==
self._iface_index`. -/
def nl_matches (family iface_index : Nat) (msg : NlMsg) : Bool :=
  msg.event == ACTION_NEWADDR && msg.family == family
    && msg.scope == SCOPE_GLOBAL && msg.index == iface_index

/-- The body of `NetlinkIPAddressTracker._run` applied to a stream of
incoming messages: for each message passing the filter, the callback is
invoked with `_get_attr(msg, 'IFA_ADDRESS')`. The result is the list of
callback arguments, in delivery order. -/
def netlink_run (family iface_index : Nat) : List NlMsg → List (Option String)
  | [] => []
  | msg :: rest =>
    if nl_matches family iface_index msg then
      get_attr msg "IFA_ADDRESS" :: netlink_run family iface_index rest
    else
      netlink_run family iface_index rest

/-- Spec-side predicate, written from the specification's words: an
"address added" (`RTM_NEWADDR`) event whose family equals the configured
family, whose scope is global (0) and whose interface index equals the
resolved index. Used to compare `netlink_run` against the spec. -/
def spec_address_added_match (family iface_index : Nat) (msg : NlMsg) : Bool :=
  msg.event == "RTM_NEWADDR" && msg.family == family
    && msg.scope == 0 && msg.index == iface_index

/-! ### `IntervalIPAddressTracker` (polling base class) -/

/-- The fields of `IntervalIPAddressTracker` set by `__init__`. -/
structure IntervalState where
  update_interval : Nat
  kill_set : Bool
  thread : Option Unit
deriving DecidableEq

/-- `IntervalIPAddressTracker.__init__`: store the interval, create the
kill event (unset), no thread yet. -/
def interval_init (update_interval : Nat) : IntervalState :=
  { update_interval := update_interval, kill_set := false, thread := none }

/-- `IntervalIPAddressTracker.stop`: set the kill event and join the thread
only when one was spawned; joining changes no modelled state. -/
def interval_stop (s : IntervalState) : IntervalState :=
  { s with kill_set := true }

/-- Timed view of `IntervalIPAddressTracker._run` when the stop event is
never set: each `self._kill_thread.wait(self.update_interval)` times out
after `update_interval` seconds, and then `self._callback(self.get_current())`
runs. `fuel` bounds the number of iterations observed; the result is the
list of times at which `get_current` is called and its result delivered to
the callback, starting from time `now`. -/
def interval_run_times (update_interval : Nat) : Nat → Nat → List Nat
  | 0, _ => []
  | fuel + 1, now =>
    (now + update_interval) :: interval_run_times update_interval fuel (now + update_interval)

/-- Callback times of a polling tracker started at time 0. -/
def interval_callback_times (update_interval fuel : Nat) : List Nat :=
  interval_run_times update_interval fuel 0

/-- `IntervalIPAddressTracker._run` as a fold over the stream of results of
`self._kill_thread.wait(...)`: `true` means the stop event was set (the wait
wakes and returns immediately), `false` means the wait timed out. The result
counts the callback invocations: one per timed-out wait, none once a wait
returns `true` (the loop exits without a final poll). -/
def interval_run_fires : List Bool → Nat
  | [] => 0
  | w :: ws => if w then 0 else interval_run_fires ws + 1

/-! ### `IpifyIPAddressTracker` -/

/-- A `requests` response: `status_code` and `text` (the decoded body). -/
structure HttpResponse where
  status_code : Nat
  text : String
deriving DecidableEq

/-- `IpifyIPAddressTracker.get_current`: `get('https://api6.ipify.org').text`
for IPv6, `get('https://api.ipify.org').text` for IPv4. `http_get` models
`requests.get`: a network-level failure is `Except.error`; any delivered
HTTP response, whatever its status code, is `Except.ok`, and `.text` is
taken from it unconditionally (the source never checks the status). -/
def ipify_get_current (http_get : String → Except String HttpResponse) (ipv6 : Bool) :
    Except String String :=
  if ipv6 then
    (http_get "https://api6.ipify.org").map HttpResponse.text
  else
    (http_get "https://api.ipify.org").map HttpResponse.text

/-- Which ipify endpoint the configured family selects. -/
def ipify_url (ipv6 : Bool) : String :=
  if ipv6 then "https://api6.ipify.org" else "https://api.ipify.org"

/-! ### `Monitor` -/

/-- What the `Monitor` can observe of a tracker instance it created:
whether `register_callback` ran and whether `start()` ran (i.e. the
tracker's background thread is live). -/
structure TrackerHandle where
  registered : Bool
  started : Bool
deriving DecidableEq

/-- The mutable state of a `Monitor` instance: the current tracker (if any
was ever constructed), `_last_ip`, the list of values forwarded to the
consumer callback (in order), a count of exceptions caught and logged, a
count of factory invocations, and the supervisory thread/kill-event
lifecycle fields. -/
structure MonState where
  tracker : Option TrackerHandle
  last_ip : Option String
  delivered : List (Option String)
  exLog : Nat
  factoryCalls : Nat
  kill_set : Bool
  thread : Option Unit
deriving DecidableEq

/-- `Monitor.__init__`: no tracker, `_last_ip = None`, nothing delivered,
kill event unset, no supervisory thread. -/
def monitor_init : MonState :=
  { tracker := none, last_ip := none, delivered := [], exLog := 0,
    factoryCalls := 0, kill_set := false, thread := none }

/-- `Monitor.stop`: set the kill event and join the supervisory thread only
when one was spawned; joining changes no modelled state. -/
def monitor_stop (s : MonState) : MonState :=
  { s with kill_set := true }

/-- `Monitor._ip_updated`: if the observed value differs from `_last_ip`,
store it and forward it to the consumer callback (recorded in `delivered`);
otherwise discard silently. Values are `Option String` because
`NetlinkIPAddressTracker.get_current` can hand the monitor `None`. -/
def ip_updated (ip : Option String) (s : MonState) : MonState :=
  if ip ≠ s.last_ip then
    { s with last_ip := ip, delivered := s.delivered ++ [ip] }
  else
    s

/-- Feed a sequence of observations through `_ip_updated` one at a time. -/
def feed_observations (s : MonState) : List (Option String) → MonState
  | [] => s
  | ip :: rest => feed_observations (ip_updated ip s) rest

/-- Outcomes of the four calls inside `Monitor._start_tracker`'s `try`
block, and of `tracker.stop()` inside `_stop_tracker`'s `try` block. The
factory and the tracker it returns are abstract (`IPAddressTracker` is an
ABC), so any of these calls may raise. -/
structure TrackerBehavior where
  factory_ok : Bool
  register_ok : Bool
  start_ok : Bool
  get_current : Except Unit (Option String)
  stop_ok : Bool

/-- The `try` body of `Monitor._start_tracker`:
`self._tracker = self._tracker_factory()`,
`self._tracker.register_callback(self._ip_updated)`, `self._tracker.start()`,
then `self._ip_updated(self._tracker.get_current())`. On an exception the
partial state reached so far is returned in `Except.error` (Python keeps
the mutations made before the raise). -/
def start_tracker_body (b : TrackerBehavior) (s : MonState) : Except MonState MonState :=
  if !b.factory_ok then
    .error s
  else
    let s1 := { s with tracker := some { registered := false, started := false } }
    if !b.register_ok then
      .error s1
    else
      let s2 := { s1 with tracker := some { registered := true, started := false } }
      if !b.start_ok then
        .error s2
      else
        let s3 := { s2 with tracker := some { registered := true, started := true } }
        match b.get_current with
        | .error _ => .error s3
        | .ok ip => .ok (ip_updated ip s3)

/-- `Monitor._start_tracker`: invoke the factory (counted in
`factoryCalls`) and run the `try` body; the `except Exception` clause turns
any raise into a logged exception (`exLog`), after which the method returns
normally. -/
def start_tracker (b : TrackerBehavior) (s : MonState) : MonState :=
  match start_tracker_body b { s with factoryCalls := s.factoryCalls + 1 } with
  | .ok s2 => s2
  | .error s2 => { s2 with exLog := s2.exLog + 1 }

/-- Whether the `try` body of `_start_tracker` raises; this is independent
of the monitor state. -/
def start_tracker_fails (b : TrackerBehavior) : Bool :=
  !b.factory_ok || !b.register_ok || !b.start_ok || raised b.get_current

/-- `Monitor._stop_tracker`: if a tracker exists, call its `stop()` inside
`try/except`; a successful stop leaves the tracker joined (not started), a
raising stop is caught and logged. -/
def stop_tracker (stop_ok : Bool) (s : MonState) : MonState :=
  match s.tracker with
  | none => s
  | some t =>
    if stop_ok then
      { s with tracker := some { t with started := false } }
    else
      { s with exLog := s.exLog + 1 }

/-- The monitor holds a live tracker: one was constructed, its `start()`
succeeded, and it has not been stopped since. -/
def tracker_live (s : MonState) : Bool :=
  match s.tracker with
  | none => false
  | some t => t.started

/-- `Monitor._run` at the state level, over the schedule of behaviors the
factory's trackers will exhibit: `_start_tracker` with `first`; then, for
each further behavior `b` (one per elapsed `autorestart_timeout` without a
stop signal), `_stop_tracker` followed by `_start_tracker` with `b`; and on
the stop signal a final `_stop_tracker`. -/
def monitor_run_states (first : TrackerBehavior) (rest : List TrackerBehavior)
    (final_stop_ok : Bool) (s : MonState) : MonState :=
  stop_tracker final_stop_ok
    (rest.foldl (fun acc b => start_tracker b (stop_tracker b.stop_ok acc))
      (start_tracker first s))

/-! ### `Monitor._run` as an event trace -/

/-- The two calls the supervisory loop makes: `_start_tracker` (which
invokes the factory) and `_stop_tracker`. -/
inductive MonitorEvent
  | startT
  | stopT
deriving DecidableEq

/-- Count occurrences of an event in a trace. -/
def mcount (e : MonitorEvent) : List MonitorEvent → Nat
  | [] => 0
  | x :: xs => (if x = e then 1 else 0) + mcount e xs

/-- The `while not self._kill_thread.wait(self._autorestart_timeout)` loop
of `Monitor._run`, given the number `n` of waits that time out before one
observes the stop signal: each timeout performs `_stop_tracker` then
`_start_tracker`; the stop signal performs the final `_stop_tracker` and
the loop exits. -/
def monitor_loop_events : Nat → List MonitorEvent
  | 0 => [.stopT]
  | n + 1 => .stopT :: .startT :: monitor_loop_events n

/-- `Monitor._run`: one `_start_tracker` on entry, then the loop. -/
def monitor_run_events (n : Nat) : List MonitorEvent :=
  .startT :: monitor_loop_events n

/-! ### Dedup, spec side -/

/-- Spec-side collapse of maximal runs of identical consecutive values,
relative to the previously delivered value: written from the
specification's description of the dedup invariant. -/
def collapse_from (last : Option String) : List String → List String
  | [] => []
  | a :: rest =>
    if some a = last then collapse_from last rest
    else a :: collapse_from (some a) rest

/-- One representative per maximal run of identical consecutive values. -/
def collapse_runs (obs : List String) : List String :=
  collapse_from none obs

/-- What `_ip_updated` delivers from a given `_last_ip`, as a standalone
list function (code side, used to relate `feed_observations` to
`collapse_runs`). -/
def dedup_from (last : Option String) : List (Option String) → List (Option String)
  | [] => []
  | ip :: rest =>
    if ip = last then dedup_from last rest
    else ip :: dedup_from ip rest

/-! ## Theorems -/

/-- Folding `_ip_updated` over a list of observations appends exactly the
deduplicated suffix to the delivered list. -/
theorem feed_delivered (obs : List (Option String)) :
    ∀ s : MonState,
      (feed_observations s obs).delivered = s.delivered ++ dedup_from s.last_ip obs := by
  induction obs with
  | nil => intro s; simp [feed_observations, dedup_from]
  | cons ip rest ih =>
    intro s
    show (feed_observations (ip_updated ip s) rest).delivered = _
    rw [ih (ip_updated ip s)]
    by_cases h : ip = s.last_ip
    · simp [ip_updated, dedup_from, h]
    · simp [ip_updated, dedup_from, h]

/-- On observations that are all `some`, the code-side dedup agrees with the
spec-side run collapse. -/
theorem dedup_from_map_some (obs : List String) :
    ∀ last : Option String,
      dedup_from last (obs.map some) = (collapse_from last obs).map some := by
  induction obs with
  | nil => intro last; simp [dedup_from, collapse_from]
  | cons a rest ih =>
    intro last
    by_cases h : some a = last
    · simp [dedup_from, collapse_from, h, ih]
    · simp [dedup_from, collapse_from, h, ih]

/-- C1: for every sequence of addresses fed through `Monitor._ip_updated`
from a fresh monitor, the consumer callback receives exactly one value per
maximal run of identical consecutive observations; in particular
`[A, A, B, B, B, A]` yields consumer calls `[A, B, A]`; and at every state a
new observation is forwarded iff it differs from the last delivered
address. -/
theorem monitor_dedup_collapses_runs :
    (∀ obs : List String,
      (feed_observations monitor_init (obs.map some)).delivered
        = (collapse_runs obs).map some)
    ∧ (feed_observations monitor_init
        (["A", "A", "B", "B", "B", "A"].map some)).delivered
        = ["A", "B", "A"].map some
    ∧ ∀ (s : MonState) (ip : Option String),
        ((ip_updated ip s).delivered ≠ s.delivered ↔ ip ≠ s.last_ip) := by
  refine ⟨fun obs => ?_, ?_, fun s ip => ?_⟩
  · rw [feed_delivered]
    simp [monitor_init, dedup_from_map_some, collapse_runs]
  · decide
  · by_cases h : ip = s.last_ip
    · simp [ip_updated, h]
    · simp only [ip_updated, if_pos h, ne_eq, h, not_false_iff, iff_true]
      intro hEq
      have hl := congrArg List.length hEq
      simp at hl

/-- The in-loop body of `Monitor._run` as an event list, unfolded. -/
theorem monitor_loop_events_eq (n : Nat) :
    monitor_loop_events n
      = (List.replicate n [MonitorEvent.stopT, MonitorEvent.startT]).flatten
        ++ [MonitorEvent.stopT] := by
  induction n with
  | zero => rfl
  | succ n ih => simp [monitor_loop_events, List.replicate_succ, ih]

/-- `_start_tracker` happens once per elapsed restart interval. -/
theorem mcount_start_loop (n : Nat) :
    mcount .startT (monitor_loop_events n) = n := by
  induction n with
  | zero => rfl
  | succ n ih => simp [monitor_loop_events, mcount, ih, Nat.add_comm]

/-- `_stop_tracker` happens once per elapsed restart interval plus once on
the stop signal. -/
theorem mcount_stop_loop (n : Nat) :
    mcount .stopT (monitor_loop_events n) = n + 1 := by
  induction n with
  | zero => rfl
  | succ n ih => simp [monitor_loop_events, mcount, ih, Nat.add_comm]

/-- C3: the supervisory loop starts a tracker once on entry; on each of the
`n` elapsed restart intervals without a stop signal it stops the current
tracker and starts a fresh one (so `_start_tracker`, and with it the
factory, runs `n + 1` times); and on the stop signal it performs exactly
one more `_stop_tracker` and exits, for `n + 1` stops in total. -/
theorem monitor_supervisory_cycle (n : Nat) :
    monitor_run_events n
      = MonitorEvent.startT ::
          ((List.replicate n [MonitorEvent.stopT, MonitorEvent.startT]).flatten
            ++ [MonitorEvent.stopT])
    ∧ mcount .startT (monitor_run_events n) = n + 1
    ∧ mcount .stopT (monitor_run_events n) = n + 1 := by
  refine ⟨?_, ?_, ?_⟩
  · rw [show monitor_run_events n = .startT :: monitor_loop_events n from rfl,
      monitor_loop_events_eq]
  · show mcount _ (.startT :: monitor_loop_events n) = n + 1
    simp [mcount, mcount_start_loop, Nat.add_comm]
  · show mcount _ (.startT :: monitor_loop_events n) = n + 1
    simp [mcount, mcount_stop_loop]

/-- Every callback of the timer loop happens at least one full interval
after the loop entered at time `now`. -/
theorem interval_run_times_lower (u : Nat) :
    ∀ fuel now t : Nat, t ∈ interval_run_times u fuel now → now + u ≤ t := by
  intro fuel
  induction fuel with
  | zero => intro now t h; simp [interval_run_times] at h
  | succ fuel ih =>
    intro now t h
    simp only [interval_run_times, List.mem_cons] at h
    rcases h with h | h
    · omega
    · have := ih (now + u) t h
      omega

/-- C5: after `start()`, the first `get_current`/callback of a polling
tracker happens exactly at time `updateInterval` (one full interval after
start), and no callback at all happens before `updateInterval`. -/
theorem polling_first_fires_after_full_interval (u fuel : Nat) :
    (interval_callback_times u (fuel + 1)).head? = some u
    ∧ ∀ t ∈ interval_callback_times u fuel, u ≤ t := by
  constructor
  · simp [interval_callback_times, interval_run_times]
  · intro t ht
    have := interval_run_times_lower u fuel 0 t ht
    omega

/-- Witness for the polling first-fire theorem at interval 5:
`interval_callback_times 5 3 = [5, 10, 15]`. -/
theorem polling_first_fires_after_full_interval_witness :
    (interval_callback_times 5 3).head? = some 5 ∧ 5 ≤ (5 : Nat) :=
  ⟨(polling_first_fires_after_full_interval 5 2).1,
   (polling_first_fires_after_full_interval 5 3).2 5 (by decide)⟩

/-- C6: if the stop event is observed by the `n + 1`-st timed wait, the
timer loop fires exactly `n` callbacks — whatever would have come later
(`rest`) never runs, and the iteration that sees the stop signal exits
without a final poll; and `stop()` itself sets the kill event so a wait in
progress wakes with `true`. -/
theorem polling_no_callback_after_stop (n : Nat) (rest : List Bool) :
    interval_run_fires (List.replicate n false ++ true :: rest) = n
    ∧ ∀ s : IntervalState, (interval_stop s).kill_set = true := by
  constructor
  · induction n with
    | zero => simp [interval_run_fires]
    | succ n ih => simp [List.replicate_succ, interval_run_fires, ih]
  · intro s; rfl

/-- The source's filter condition coincides with the spec's description of
a matching event. -/
theorem nl_matches_eq_spec (family iface_index : Nat) (msg : NlMsg) :
    nl_matches family iface_index msg = spec_address_added_match family iface_index msg := rfl

/-- C7: the netlink event loop invokes the callback for exactly the
messages matching the spec's filter (`RTM_NEWADDR`, configured family,
global scope, resolved interface index), in order, each with the value of
the message's `IFA_ADDRESS` attribute; every other message is discarded. -/
theorem netlink_callback_exactly_matching (family iface_index : Nat) (msgs : List NlMsg) :
    netlink_run family iface_index msgs
      = (msgs.filter (spec_address_added_match family iface_index)).map
          (fun m => get_attr m "IFA_ADDRESS") := by
  induction msgs with
  | nil => rfl
  | cons m rest ih =>
    by_cases h : nl_matches family iface_index m = true
    · have hs : spec_address_added_match family iface_index m = true := by
        rw [← nl_matches_eq_spec]; exact h
      simp [netlink_run, h, List.filter_cons, hs, ih]
    · have hs : spec_address_added_match family iface_index m = false := by
        rw [← nl_matches_eq_spec]
        exact Bool.eq_false_iff.mpr h
      simp [netlink_run, h, List.filter_cons, hs, ih]

/-- `_ip_updated` touches only `last_ip` and `delivered`. -/
theorem ip_updated_factoryCalls (ip : Option String) (s : MonState) :
    (ip_updated ip s).factoryCalls = s.factoryCalls := by
  unfold ip_updated; split <;> rfl

/-- `_start_tracker` invokes the factory exactly once per call, whether or
not its body raises. -/
theorem start_tracker_factoryCalls (b : TrackerBehavior) (s : MonState) :
    (start_tracker b s).factoryCalls = s.factoryCalls + 1 := by
  cases hf : b.factory_ok <;> cases hr : b.register_ok <;> cases hst : b.start_ok <;>
    cases hg : b.get_current <;>
      simp [start_tracker, start_tracker_body, ip_updated_factoryCalls, hf, hr, hst, hg]

/-- `_stop_tracker` never invokes the factory. -/
theorem stop_tracker_factoryCalls (ok : Bool) (s : MonState) :
    (stop_tracker ok s).factoryCalls = s.factoryCalls := by
  obtain ⟨tr, li, d, e, fc, k, th⟩ := s
  cases tr <;> cases ok <;> rfl

/-- Each stop-then-start cycle of the supervisory loop adds one factory
invocation, regardless of which calls raise. -/
theorem foldl_cycles_factoryCalls (rest : List TrackerBehavior) :
    ∀ acc : MonState,
      (rest.foldl (fun acc b => start_tracker b (stop_tracker b.stop_ok acc)) acc).factoryCalls
        = acc.factoryCalls + rest.length := by
  induction rest with
  | nil => intro acc; simp
  | cons b bs ih =>
    intro acc
    simp only [List.foldl_cons, List.length_cons]
    rw [ih, start_tracker_factoryCalls, stop_tracker_factoryCalls]
    omega

/-- A raising `_start_tracker` body is caught and logged. -/
theorem start_tracker_logs (b : TrackerBehavior) (s : MonState) :
    start_tracker_fails b = true → (start_tracker b s).exLog = s.exLog + 1 := by
  intro h
  cases hf : b.factory_ok <;> cases hr : b.register_ok <;> cases hst : b.start_ok <;>
    cases hg : b.get_current <;>
      simp [start_tracker_fails, raised, hf, hr, hst, hg] at h <;>
      simp [start_tracker, start_tracker_body, hf, hr, hst, hg]

set_option linter.unnecessarySimpa false in
/-- A failure at the factory, registration or `start()` step leaves the
monitor with no live tracker (assuming it had none, as in the supervisory
loop after `_stop_tracker`). -/
theorem start_tracker_prestart_not_live (b : TrackerBehavior) (s : MonState) :
    tracker_live s = false →
    (b.factory_ok = false ∨ b.register_ok = false ∨ b.start_ok = false) →
    tracker_live (start_tracker b s) = false := by
  intro hlive h
  obtain ⟨tr, li, d, e, fc, k, th⟩ := s
  cases hf : b.factory_ok <;> cases hr : b.register_ok <;> cases hst : b.start_ok <;>
    cases hg : b.get_current <;>
      simp [hf, hr, hst] at h <;>
      simpa [start_tracker, start_tracker_body, tracker_live, hf, hr, hst, hg]
        using hlive

/-- When only the initial `get_current` raises, the tracker has already
been started and stays live. -/
theorem start_tracker_getcurrent_raises_live (b : TrackerBehavior) (s : MonState) (e : Unit) :
    b.factory_ok = true → b.register_ok = true → b.start_ok = true →
    b.get_current = .error e →
    tracker_live (start_tracker b s) = true := by
  intro hf hr hst hg
  simp [start_tracker, start_tracker_body, tracker_live, hf, hr, hst, hg]

/-- C2 amended: any exception in the `_start_tracker` sequence (factory,
registration, `start()`, initial `get_current`) is caught and logged and
never propagates — the supervisory loop attempts every scheduled fresh
start, so the factory is invoked once per cycle regardless of failures.
A failure at or before the `start()` step leaves no live tracker; but when
only the initial `get_current` raises, the already-started tracker remains
live (contrary to the claim's "no live tracker" for that case). -/
theorem monitor_start_exception_contained (b : TrackerBehavior) (s : MonState)
    (first : TrackerBehavior) (rest : List TrackerBehavior) (fso : Bool) :
    (start_tracker_fails b = true → (start_tracker b s).exLog = s.exLog + 1)
    ∧ (tracker_live s = false →
        (b.factory_ok = false ∨ b.register_ok = false ∨ b.start_ok = false) →
        tracker_live (start_tracker b s) = false)
    ∧ (b.factory_ok = true → b.register_ok = true → b.start_ok = true →
        raised b.get_current = true → tracker_live (start_tracker b s) = true)
    ∧ (monitor_run_states first rest fso s).factoryCalls
        = s.factoryCalls + (1 + rest.length) := by
  refine ⟨start_tracker_logs b s, start_tracker_prestart_not_live b s, ?_, ?_⟩
  · intro hf hr hst hraised
    cases hg : b.get_current with
    | ok v => rw [hg] at hraised; exact absurd hraised (by simp [raised])
    | error e => exact start_tracker_getcurrent_raises_live b s e hf hr hst hg
  · unfold monitor_run_states
    rw [stop_tracker_factoryCalls, foldl_cycles_factoryCalls,
      start_tracker_factoryCalls]
    omega

/-- A tracker whose initial `get_current` raises after a successful
`start()`. -/
def behavior_getcur_raises : TrackerBehavior :=
  { factory_ok := true, register_ok := true, start_ok := true,
    get_current := .error (), stop_ok := true }

/-- A tracker factory that raises. -/
def behavior_factory_raises : TrackerBehavior :=
  { factory_ok := false, register_ok := true, start_ok := true,
    get_current := .ok (some "198.51.100.7"), stop_ok := true }

/-- C2 counterexample: when the factory, registration and `start()` all
succeed and only the initial `get_current` raises, the exception is indeed
caught and logged, but the supervisor is left with a live (started)
tracker — not "no live tracker" as the claim states. -/
theorem monitor_start_exception_live_tracker :
    start_tracker_fails behavior_getcur_raises = true
    ∧ (start_tracker behavior_getcur_raises monitor_init).exLog = 1
    ∧ tracker_live (start_tracker behavior_getcur_raises monitor_init) = true :=
  ⟨rfl, rfl, rfl⟩

/-- Witness for the exception-containment theorem: a raising factory is
logged and leaves no live tracker; a raising initial `get_current` leaves a
live tracker; a one-cycle supervisory run attempts the factory once. -/
theorem monitor_start_exception_contained_witness :
    (start_tracker behavior_factory_raises monitor_init).exLog = 1
    ∧ tracker_live (start_tracker behavior_factory_raises monitor_init) = false
    ∧ tracker_live (start_tracker behavior_getcur_raises monitor_init) = true
    ∧ (monitor_run_states behavior_factory_raises [] true monitor_init).factoryCalls = 1 :=
  ⟨(monitor_start_exception_contained behavior_factory_raises monitor_init
      behavior_factory_raises [] true).1 rfl,
   (monitor_start_exception_contained behavior_factory_raises monitor_init
      behavior_factory_raises [] true).2.1 rfl (Or.inl rfl),
   (monitor_start_exception_contained behavior_getcur_raises monitor_init
      behavior_getcur_raises [] true).2.2.1 rfl rfl rfl rfl,
   (monitor_start_exception_contained behavior_factory_raises monitor_init
      behavior_factory_raises [] true).2.2.2⟩

/-- C4: interface resolution at `NetlinkIPAddressTracker` construction.
With no name and a nonempty default-route list, the index of the first
default route's outbound interface is returned; with no default routes it
raises; with an explicit name matching zero or at least two interfaces it
raises; a unique match returns that index; and any resolution failure makes
the constructor itself fail (it calls `_find_interface_index` exactly once,
so the failure is not retried). -/
theorem netlink_interface_resolution (env : NetEnv) (fam : Nat) (name : String)
    (route : RtMsg) (routes : List RtMsg) (link : LinkMsg) (links : List LinkMsg)
    (i : Nat) (ipv6 : Bool) (iface_name : Option String) :
    (env.get_default_routes fam = route :: routes →
      env.get_links route.rta_oif = link :: links →
      find_interface_index env fam none = .ok link.index)
    ∧ (env.get_default_routes fam = [] →
        raised (find_interface_index env fam none) = true)
    ∧ (env.link_lookup name = [] →
        raised (find_interface_index env fam (some name)) = true)
    ∧ (2 ≤ (env.link_lookup name).length →
        raised (find_interface_index env fam (some name)) = true)
    ∧ (env.link_lookup name = [i] →
        find_interface_index env fam (some name) = .ok i)
    ∧ (raised (find_interface_index env (family_of ipv6) iface_name) = true →
        raised (netlink_init env ipv6 iface_name) = true) := by
  refine ⟨fun h1 h2 => ?_, fun h => ?_, fun h => ?_, fun h => ?_, fun h => ?_, fun h => ?_⟩
  · simp [find_interface_index, h1, h2]
  · simp [find_interface_index, h, raised]
  · simp [find_interface_index, h, raised]
  · rcases hL : env.link_lookup name with _ | ⟨a, _ | ⟨b, t⟩⟩
    · rw [hL] at h; simp at h
    · rw [hL] at h; simp at h
    · simp [find_interface_index, hL, raised]
  · simp [find_interface_index, h]
  · unfold netlink_init
    cases hfi : find_interface_index env (family_of ipv6) iface_name with
    | ok v => rw [hfi] at h; simp [raised] at h
    | error e => simp [Except.map, raised]

/-- A routing environment with an IPv4 default route out of interface 7,
one link of index 3 named eth0, and a duplicated name. -/
def demo_env : NetEnv :=
  { get_default_routes := fun fam => if fam = AF_INET then [{ rta_oif := some 7 }] else [],
    get_links := fun oif => if oif = some 7 then [{ index := 3, ifname := some "eth0" }] else [],
    link_lookup := fun nm =>
      if nm = "eth0" then [3] else if nm = "twin" then [4, 5] else [] }

/-- Witness for interface resolution on `demo_env`. -/
theorem netlink_interface_resolution_witness :
    find_interface_index demo_env AF_INET none = .ok 3
    ∧ raised (find_interface_index demo_env AF_INET6 none) = true
    ∧ raised (find_interface_index demo_env AF_INET (some "missing")) = true
    ∧ raised (find_interface_index demo_env AF_INET (some "twin")) = true
    ∧ find_interface_index demo_env AF_INET (some "eth0") = .ok 3
    ∧ raised (netlink_init demo_env true none) = true :=
  ⟨(netlink_interface_resolution demo_env AF_INET "x" { rta_oif := some 7 } []
      { index := 3, ifname := some "eth0" } [] 0 true none).1 (by decide) (by decide),
   (netlink_interface_resolution demo_env AF_INET6 "x" { rta_oif := some 7 } []
      { index := 3, ifname := some "eth0" } [] 0 true none).2.1 (by decide),
   (netlink_interface_resolution demo_env AF_INET "missing" { rta_oif := some 7 } []
      { index := 3, ifname := some "eth0" } [] 0 true none).2.2.1 (by decide),
   (netlink_interface_resolution demo_env AF_INET "twin" { rta_oif := some 7 } []
      { index := 3, ifname := some "eth0" } [] 0 true none).2.2.2.1 (by decide),
   (netlink_interface_resolution demo_env AF_INET "eth0" { rta_oif := some 7 } []
      { index := 3, ifname := some "eth0" } [] 3 true none).2.2.2.2.1 (by decide),
   (netlink_interface_resolution demo_env AF_INET "x" { rta_oif := some 7 } []
      { index := 3, ifname := some "eth0" } [] 0 true none).2.2.2.2.2 (by decide)⟩

/-- An HTTP environment whose server always answers 404 with an error
page. -/
def http_env_not_found : String → Except String HttpResponse :=
  fun _ => .ok { status_code := 404, text := "404 page not found" }

/-- C8 counterexample: on a non-success HTTP response (status 404),
`IpifyIPAddressTracker.get_current` does not raise — the source never
checks the status code — and instead returns the error page's body verbatim
as the "address". -/
theorem ipify_nonsuccess_returns_body :
    http_env_not_found (ipify_url false) = .ok { status_code := 404, text := "404 page not found" }
    ∧ (404 : Nat) ≠ 200
    ∧ ipify_get_current http_env_not_found false = .ok "404 page not found"
    ∧ raised (ipify_get_current http_env_not_found false) = false :=
  ⟨rfl, by decide, rfl, rfl⟩

/-- C8 amended: `get_current` selects the ipify endpoint by the configured
family and returns the response body verbatim for any delivered response,
whatever its status; it fails exactly when the network request itself
fails (no timeout is configured, and non-success statuses are not
detected). -/
theorem ipify_returns_body_verbatim (http_get : String → Except String HttpResponse)
    (ipv6 : Bool) (r : HttpResponse) (e : String) :
    (http_get (ipify_url ipv6) = .ok r → ipify_get_current http_get ipv6 = .ok r.text)
    ∧ (http_get (ipify_url ipv6) = .error e → ipify_get_current http_get ipv6 = .error e) := by
  constructor
  · intro h
    cases ipv6 <;> simp [ipify_url] at h <;> simp [ipify_get_current, h, Except.map]
  · intro h
    cases ipv6 <;> simp [ipify_url] at h <;> simp [ipify_get_current, h, Except.map]

/-- Witness: the 404 environment delivers a response, and its body is
returned verbatim. -/
theorem ipify_returns_body_verbatim_witness :
    ipify_get_current http_env_not_found true = .ok "404 page not found" :=
  (ipify_returns_body_verbatim http_env_not_found true
    { status_code := 404, text := "404 page not found" } "e").1 rfl

/-- C9: calling `stop()` on a freshly constructed (never started) interval
tracker, monitor, or netlink tracker returns normally — the thread join is
guarded by `self._t is not None` — leaves the thread slot empty, and spawns
nothing. -/
theorem stop_before_start_safe (ui : Nat) (env : NetEnv) (ipv6 : Bool)
    (iface_name : Option String) (st : NetlinkState) :
    interval_stop (interval_init ui)
      = { update_interval := ui, kill_set := true, thread := none }
    ∧ (interval_stop (interval_init ui)).thread = none
    ∧ monitor_stop monitor_init = { monitor_init with kill_set := true }
    ∧ (monitor_stop monitor_init).thread = none
    ∧ (netlink_init env ipv6 iface_name = .ok st →
        netlink_stop st = { st with kill_set := true, ipr_open := false }
        ∧ (netlink_stop st).thread = none) := by
  refine ⟨rfl, rfl, rfl, rfl, fun h => ⟨rfl, ?_⟩⟩
  unfold netlink_init at h
  cases hfi : find_interface_index env (family_of ipv6) iface_name with
  | error e => rw [hfi] at h; simp [Except.map] at h
  | ok idx =>
    rw [hfi] at h
    simp only [Except.map, Except.ok.injEq] at h
    rw [← h]
    rfl

/-- The `NetlinkIPAddressTracker` state that `netlink_init demo_env false
none` constructs: eth0 (index 3) resolved, nothing started. -/
def netlink_unstarted : NetlinkState :=
  { iface_name := none, ipv6 := false, family := AF_INET,
    kill_set := false, ipr_open := true, thread := none, iface_index := 3 }

/-- Witness for stop-before-start on concrete states. -/
theorem stop_before_start_safe_witness :
    (interval_stop (interval_init 60)).thread = none
    ∧ (monitor_stop monitor_init).thread = none
    ∧ (netlink_stop netlink_unstarted).thread = none :=
  ⟨(stop_before_start_safe 60 demo_env false none netlink_unstarted).2.1,
   (stop_before_start_safe 60 demo_env false none netlink_unstarted).2.2.2.1,
   ((stop_before_start_safe 60 demo_env false none netlink_unstarted).2.2.2.2
      rfl).2⟩

/-- C10: a message without an `IFA_ADDRESS` attribute makes `_get_attr`
return `None` rather than raise, so `get_current` can return `None` and the
event loop can invoke the callback with `None`; and since `_last_ip` starts
as `None`, such a `None` as the monitor's first observation is discarded
with no consumer call. -/
theorem netlink_none_address_discarded (m : NlMsg) (rest : List NlMsg)
    (fam idx : Nat) :
    (m.attrs.all (fun attr => !(attr.1 == "IFA_ADDRESS")) = true →
      get_attr m "IFA_ADDRESS" = none)
    ∧ (m.attrs.all (fun attr => !(attr.1 == "IFA_ADDRESS")) = true →
        netlink_get_current (m :: rest) = .ok none)
    ∧ (nl_matches fam idx m = true →
        m.attrs.all (fun attr => !(attr.1 == "IFA_ADDRESS")) = true →
        netlink_run fam idx (m :: rest) = none :: netlink_run fam idx rest)
    ∧ ip_updated none monitor_init = monitor_init := by
  have hget : m.attrs.all (fun attr => !(attr.1 == "IFA_ADDRESS")) = true →
      get_attr m "IFA_ADDRESS" = none := by
    intro h
    rw [List.all_eq_true] at h
    unfold get_attr
    have hfind : m.attrs.find? (fun attr => attr.1 == "IFA_ADDRESS") = none := by
      rw [List.find?_eq_none]
      intro x hx
      have hx2 := h x hx
      simp at hx2 ⊢
      exact hx2
    rw [hfind]
    rfl
  refine ⟨hget, fun h => ?_, fun hm h => ?_, rfl⟩
  · show Except.ok (get_attr m "IFA_ADDRESS") = .ok none
    rw [hget h]
  · show (if nl_matches fam idx m then _ else _) = _
    rw [hm, if_pos rfl, hget h]

/-- An `RTM_NEWADDR` message carrying no `IFA_ADDRESS` attribute. -/
def msg_no_addr : NlMsg :=
  { event := "RTM_NEWADDR", family := 2, scope := 0, index := 3,
    attrs := [("IFA_LABEL", "eth0")] }

/-- Witness: the attribute-less message flows through as `None` and a fresh
monitor discards it silently. -/
theorem netlink_none_address_discarded_witness :
    get_attr msg_no_addr "IFA_ADDRESS" = none
    ∧ netlink_get_current [msg_no_addr] = .ok none
    ∧ netlink_run 2 3 [msg_no_addr] = [none]
    ∧ ip_updated none monitor_init = monitor_init :=
  ⟨(netlink_none_address_discarded msg_no_addr [] 2 3).1 (by decide),
   (netlink_none_address_discarded msg_no_addr [] 2 3).2.1 (by decide),
   (netlink_none_address_discarded msg_no_addr [] 2 3).2.2.1 (by decide) (by decide),
   (netlink_none_address_discarded msg_no_addr [] 2 3).2.2.2⟩

end CFDNS
